import Mathlib

/-!
Verification of the mediaverse repository: a shallow embedding of the
Telegram inline-query bot (src/src/index.ts) and the interactive CLI
search flow (src/unnamed/part_000), with theorems settling the claims
about their behaviour.
-/

/-- Media type from the source: `type Media = 'movie' | 'tv'`. -/
inductive Media
  | movie
  | tv
deriving DecidableEq, Repr

/-! Status dispatch of the `fetch` helper:
`if (res.statusCode >= 200 || res.statusCode <= 299) { parse body } else { reject }`. -/

/-- Paths the `fetch` helper can take on an HTTP response. -/
inductive FetchPath
  | parseBody
  | rejectStatus
deriving DecidableEq, Repr

/-- Embeds the boolean condition `res.statusCode >= 200 || res.statusCode <= 299`. -/
def fetchStatusOk (statusCode : Int) : Bool :=
  decide (200 ≤ statusCode) || decide (statusCode ≤ 299)

/-- Embeds the branch taken by `fetch` for a response with the given status code. -/
def fetchDispatch (statusCode : Int) : FetchPath :=
  if fetchStatusOk statusCode then FetchPath.parseBody else FetchPath.rejectStatus

/-! Embedding of `escapeRegExp`:
`text.replace(/[-[\]{}()*+!?.,\\^$|#\s]/g, '\\$&')`. -/

/-- Character codes of the punctuation in the regex class of `escapeRegExp`
(hyphen, square brackets, curly brackets, parentheses, star, plus, bang,
question mark, dot, comma, backslash, caret, dollar, pipe, hash). -/
def reservedPunctCodes : List Nat :=
  [45, 91, 93, 123, 125, 40, 41, 42, 43, 33, 63, 46, 44, 92, 94, 36, 124, 35]

/-- Character codes matched by the ECMAScript whitespace class. -/
def jsWhitespaceCodes : List Nat :=
  [9, 10, 11, 12, 13, 32, 160, 5760, 8192, 8193, 8194, 8195, 8196, 8197, 8198,
   8199, 8200, 8201, 8202, 8232, 8233, 8239, 8287, 12288, 65279]

/-- Membership in the character class of the `escapeRegExp` regex. -/
def isReserved (c : Char) : Bool :=
  reservedPunctCodes.contains c.toNat || jsWhitespaceCodes.contains c.toNat

/-- The backslash character used as the escape prefix. -/
def bslash : Char := Char.ofNat 92

/-- Global replacement over the character list: each matched character is
replaced by a backslash followed by the character itself. -/
def escapeChars : List Char → List Char
  | [] => []
  | c :: rest => (if isReserved c then [bslash, c] else [c]) ++ escapeChars rest

/-- Embeds `escapeRegExp`. -/
def escapeRegExp (text : String) : String :=
  String.mk (escapeChars text.data)

/-! Data model of the upstream search response; optional fields model the
runtime presence checks done with the `in` operator. -/

/-- A raw search result as the code reads it at runtime. -/
structure RawResult where
  id : Int
  title : Option String
  release_date : Option String
  name : Option String
  first_air_date : Option String
deriving DecidableEq, Repr

/-- The parsed search response; `results` is optional so a response without
that field can be represented (the code checks `if (!results) return`). -/
structure SearchResponse where
  page : Int
  results : Option (List RawResult)
  total_pages : Int
  total_results : Int
deriving DecidableEq, Repr

/-- A watch provider entry as read from the flatrate list. -/
structure Provider where
  provider_name : String
deriving DecidableEq, Repr

/-- US region offers; only the subscription (flatrate) list is read. -/
structure RegionOffers where
  flatrate : Option (List Provider)
deriving DecidableEq, Repr

/-- The `results` object of a watch-provider response, keyed by region. -/
structure ProviderResults where
  US : Option RegionOffers
deriving DecidableEq, Repr

/-- A watch-provider response for one title. -/
structure ProviderResponse where
  results : Option ProviderResults
deriving DecidableEq, Repr

/-! The inline result formatter (getInlineResultsMap body). -/

/-- The presence filter: `'title' in result` for movies, `'name' in result` for tv. -/
def hasVariantField (ty : Media) (r : RawResult) : Bool :=
  match ty with
  | Media.movie => r.title.isSome
  | Media.tv => r.name.isSome

/-- Title selection by media type (possibly undefined). -/
def titleOf (ty : Media) (r : RawResult) : Option String :=
  match ty with
  | Media.movie => r.title
  | Media.tv => r.name

/-- Date selection by media type: for movies the code keys the date on the
presence of `title`; for tv on the presence of `first_air_date`. -/
def dateOf (ty : Media) (r : RawResult) : Option String :=
  match ty with
  | Media.movie => if r.title.isSome then r.release_date else none
  | Media.tv => r.first_air_date

/-- Decimal value of a digit list. -/
def digitsVal (cs : List Char) : Nat :=
  cs.foldl (fun n c => n * 10 + (c.toNat - 48)) 0

/-- Models `new Date(s).getFullYear()` on the upstream date-only strings
of shape yyyy-mm-dd (parsed as UTC midnight; the year is the leading
decimal component before the first hyphen). -/
def dateYear (s : String) : Int :=
  Int.ofNat (digitsVal (s.data.takeWhile (fun c => c ≠ Char.ofNat 45)))

/-- Embeds `date ? new Date(date).getFullYear() : undefined`: both an absent
date and an empty date string are falsy in JS, so both yield undefined. -/
def deriveYear : Option String → Option Int
  | none => none
  | some s => if s.data = [] then none else some (dateYear s)

/-- Template-literal rendering of a possibly-undefined string
(JS renders undefined as the text undefined). -/
def optStr : Option String → String
  | none => "undefined"
  | some s => s

/-- Template-literal rendering of a possibly-undefined number. -/
def optNumStr : Option Int → String
  | none => "undefined"
  | some n => toString n

/-- The `watch` accumulator built from a title's watch-provider response,
guarded by `providers?.results && providers.results?.US` and `US?.flatrate`.
JS truthiness: a present object or array is truthy, including an empty array. -/
def watchBlock (p : ProviderResponse) : String :=
  match p.results with
  | none => ""
  | some rs =>
    match rs.US with
    | none => ""
    | some us =>
      match us.flatrate with
      | none => ""
      | some fr =>
        "Streaming on:\n" ++ String.join (fr.map (fun s => s.provider_name ++ "\n"))

/-- The US flatrate list reached through the optional chain, when present. -/
def flatrateOf (p : ProviderResponse) : Option (List Provider) :=
  match p.results with
  | none => none
  | some rs =>
    match rs.US with
    | none => none
    | some us => us.flatrate

/-- A formatted inline article result. -/
structure InlineResult where
  id : Int
  type : String
  title : String
  parse_mode : String
  message_text : String
deriving DecidableEq, Repr

/-- The composed title string of the template literal in the formatter. -/
def composedTitle (ty : Media) (r : RawResult) : String :=
  optStr (titleOf ty r) ++ " (" ++ optNumStr (deriveYear (dateOf ty r)) ++ ")"

/-- The composed message body before escaping: the argument passed to
escapeRegExp in the source. `prov` is the oracle standing for the awaited
getWatchProvidersByMediaId call. -/
def composedBody (prov : Int → Media → ProviderResponse) (ty : Media) (r : RawResult) :
    String :=
  composedTitle ty r ++ "\n\n" ++ watchBlock (prov r.id ty)

/-- Formats one raw result into an inline article result. -/
def formatResult (prov : Int → Media → ProviderResponse) (ty : Media) (r : RawResult) :
    InlineResult :=
  { id := r.id
    type := "article"
    title := composedTitle ty r
    parse_mode := "MarkdownV2"
    message_text := escapeRegExp (composedBody prov ty r) }

/-- Embeds getInlineResultsMap: returns none when the parsed response has no
results field; otherwise takes the first 10 raw results, filters them by the
variant's distinguishing field, and formats each positionally. -/
def getInlineResultsMap (prov : Int → Media → ProviderResponse)
    (search : SearchResponse) (ty : Media) : Option (List InlineResult) :=
  match search.results with
  | none => none
  | some results =>
    some (((results.take 10).filter (fun r => hasVariantField ty r)).map
      (formatResult prov ty))

/-- Embeds getInlineResults: spreads the movie list then the tv list into one
array; spreading undefined throws, modelled as the error branch. -/
def getInlineResults (prov : Int → Media → ProviderResponse)
    (movieSearch tvSearch : SearchResponse) : Except String (List InlineResult) :=
  match getInlineResultsMap prov movieSearch Media.movie,
        getInlineResultsMap prov tvSearch Media.tv with
  | some movies, some tv => Except.ok (movies ++ tv)
  | _, _ => Except.error "TypeError: spread of undefined"

/-- Outcome of the inline-query handler. -/
inductive HandlerOutcome
  | noReply
  | answered (results : List InlineResult)
  | errored (msg : String)
deriving DecidableEq, Repr

/-- Embeds the inline_query handler: answers only when the combined list is
non-empty; a thrown error ends the handler without any answer call. -/
def inlineQueryHandler (prov : Int → Media → ProviderResponse)
    (movieSearch tvSearch : SearchResponse) : HandlerOutcome :=
  match getInlineResults prov movieSearch tvSearch with
  | Except.error e => HandlerOutcome.errored e
  | Except.ok results =>
    if results.length > 0 then HandlerOutcome.answered results
    else HandlerOutcome.noReply

/-! The WATCH_PROVIDERS catalog cache (getWatchProviders). The module-level
Map is passed explicitly as a function from media type to optional catalog;
`fetched` records whether the call performed a network fetch. -/

/-- Result of one getWatchProviders call: returned value, cache afterwards,
and whether a fetch happened. -/
structure WPResult (α : Type) where
  value : α
  cache : Media → Option α
  fetched : Bool

/-- Embeds getWatchProviders: on a miss, fetch the catalog and store it;
on a hit, return the stored catalog untouched. -/
def getWatchProviders {α : Type} (fetchCatalog : Media → α) (ty : Media)
    (cache : Media → Option α) : WPResult α :=
  match cache ty with
  | some v => ⟨v, cache, false⟩
  | none =>
    let v := fetchCatalog ty
    ⟨v, fun t => if t = ty then some v else cache t, true⟩

/-! The CLI flow (src/unnamed/part_000): getAnswerFromUser and one round
of userSearch after the page is fetched and a valid choice is entered. -/

/-- Option numbers presented to the user: index+1 for each real result, plus
results.length+1 for the show-more option when the flag is set. -/
def validChoices (results : List RawResult) (showMore : Bool) : List Nat :=
  (List.range results.length).map (fun i => i + 1) ++
    (if showMore then [results.length + 1] else [])

/-- Embeds the tail of getAnswerFromUser: `resultsMap.get(choice)` followed by
`if (result) return result.id` (the map numbers real results from 1). -/
def getAnswerFromUser (results : List RawResult) (choice : Nat) : Option Int :=
  (results.get? (choice - 1)).map (fun r => r.id)

/-- What one round of the user search decides to do next. -/
inductive SearchAction
  | fetchDetails (id : Int)
  | nextPage (page : Int)
  | stop
deriving DecidableEq, Repr

/-- JS truthiness of the optional numeric id in `if (id)`: undefined and 0
are both falsy. -/
def idTruthy : Option Int → Bool
  | none => false
  | some i => decide (i ≠ 0)

/-- Embeds one round of userSearch after the page was fetched and the user
entered a valid choice: a truthy id fetches details; otherwise, when the
show-more flag is set (twice-checked in the source), the next page is
queried; otherwise the flow stops. -/
def userSearchStep (results : List RawResult) (total_pages page : Int)
    (choice : Nat) : SearchAction :=
  let showMore := decide (page < total_pages)
  let id := getAnswerFromUser results choice
  if idTruthy id then SearchAction.fetchDetails (id.getD 0)
  else if showMore && decide (page < total_pages) then SearchAction.nextPage (page + 1)
  else SearchAction.stop

/-- The choices presented on one page: the show-more flag is
`currentPage < total_pages` as computed in userSearch. -/
def presentedChoices (results : List RawResult) (total_pages page : Int) : List Nat :=
  validChoices results (decide (page < total_pages))

/-! Concrete fixtures used by witnesses and counterexamples. -/

/-- A provider oracle returning a response without a results object. -/
def prov0 : Int → Media → ProviderResponse := fun _ _ => { results := none }

/-- A concrete movie search result. -/
def rawMovie1 : RawResult :=
  { id := 1, title := some ("The Terminator"), release_date := some ("1984-10-26"),
    name := none, first_air_date := none }

/-- A concrete tv search result. -/
def rawTv1 : RawResult :=
  { id := 2, title := none, release_date := none,
    name := some ("Pantheon"), first_air_date := some ("2022-09-01") }

/-- A concrete successful movie search response. -/
def ms0 : SearchResponse :=
  { page := 1, results := some [rawMovie1], total_pages := 1, total_results := 1 }

/-- A concrete successful tv search response. -/
def ts0 : SearchResponse :=
  { page := 1, results := some [rawTv1], total_pages := 1, total_results := 1 }

/-- The formatted movie list of the concrete query. -/
def movies0 : List InlineResult := (getInlineResultsMap prov0 ms0 Media.movie).getD []

/-- The formatted tv list of the concrete query. -/
def tv0 : List InlineResult := (getInlineResultsMap prov0 ts0 Media.tv).getD []

/-- A successful search response with zero results. -/
def msEmpty : SearchResponse :=
  { page := 1, results := some [], total_pages := 1, total_results := 0 }

/-- A parsed response lacking the results field. -/
def msNoResults : SearchResponse :=
  { page := 1, results := none, total_pages := 0, total_results := 0 }

/-- A movie result whose date string is empty. -/
def rEmptyDate : RawResult :=
  { id := 3, title := some ("X"), release_date := some (""),
    name := none, first_air_date := none }

/-- A provider response whose US flatrate list is present and empty. -/
def provEmptyFlatrate : ProviderResponse :=
  { results := some { US := some { flatrate := some [] } } }

/-- A provider response with the single US flatrate provider Netflix. -/
def provNetflix : ProviderResponse :=
  { results := some { US := some { flatrate := some [{ provider_name := "Netflix" }] } } }

/-- A provider response without a results object. -/
def provNone : ProviderResponse := { results := none }

/-- Constant provider oracle. -/
def provFor (p : ProviderResponse) : Int → Media → ProviderResponse := fun _ _ => p

/-- An empty provider-catalog cache. -/
def cacheEmpty : Media → Option Nat := fun _ => none

/-- A constant catalog fetcher used by the cache witness. -/
def constCatalog : Media → Nat := fun _ => 7

/-- A search result with id 0 (falsy in JS). -/
def rZeroId : RawResult :=
  { id := 0, title := some ("Z"), release_date := some ("1999-01-01"),
    name := none, first_air_date := none }

/-! Shared helper lemmas. -/

/-- escapeChars distributes over list append. -/
theorem escapeChars_append (a b : List Char) :
    escapeChars (a ++ b) = escapeChars a ++ escapeChars b := by
  induction a with
  | nil => rfl
  | cons c rest ih => simp [escapeChars, ih, List.append_assoc]

/-- escapeChars is the bind of the per-character replacement. -/
theorem escapeChars_eq_bind (l : List Char) :
    escapeChars l = l.flatMap (fun c => if isReserved c then [bslash, c] else [c]) := by
  induction l with
  | nil => rfl
  | cons c rest ih => simp [escapeChars, ih]

/-- escapeChars leaves a reserved-free character list unchanged. -/
theorem escapeChars_id_of_unreserved (s : List Char)
    (h : ∀ c ∈ s, isReserved c = false) : escapeChars s = s := by
  induction s with
  | nil => rfl
  | cons c rest ih =>
    have hc := h c (by simp)
    simp [escapeChars, hc, ih (fun d hd => h d (by simp [hd]))]

/-! Claim theorems. -/

/-- Claim C1: for every integer status code the success predicate of the fetch
helper evaluates to true, so the reject branch reporting the status code is
unreachable and the body is always parsed. -/
theorem c1_fetch_status_check_tautology (s : Int) :
    fetchStatusOk s = true ∧ fetchDispatch s = FetchPath.parseBody := by
  have hc : fetchStatusOk s = true := by
    unfold fetchStatusOk
    rcases le_or_lt 200 s with h | h
    · simp [h]
    · have h2 : s ≤ 299 := by omega
      simp [h2]
  exact ⟨hc, by simp [fetchDispatch, hc]⟩

/-- Claim C3: escapeRegExp prefixes every occurrence of a character of the
reserved set by exactly one backslash, alters no other character, and returns
any reserved-free string unchanged. -/
theorem c3_escapeRegExp_spec :
    (∀ s : String, (∀ c ∈ s.data, isReserved c = false) → escapeRegExp s = s) ∧
    (∀ s : String, (escapeRegExp s).data =
      s.data.flatMap (fun c => if isReserved c then [bslash, c] else [c])) ∧
    (∀ pre post : List Char, ∀ c : Char,
      escapeChars (pre ++ c :: post) =
        escapeChars pre ++ (if isReserved c then [bslash, c] else [c]) ++
          escapeChars post) := by
  refine ⟨?_, ?_, ?_⟩
  · intro s h
    show String.mk (escapeChars s.data) = s
    rw [escapeChars_id_of_unreserved s.data h]
  · intro s
    show escapeChars s.data = _
    exact escapeChars_eq_bind s.data
  · intro pre post c
    rw [escapeChars_append]
    simp [escapeChars, List.append_assoc]

/-- Witness for claim C3: a reserved-free string passes through unchanged. -/
theorem c3_escapeRegExp_spec_witness : escapeRegExp ("abc") = "abc" :=
  c3_escapeRegExp_spec.1 "abc" (by decide)

/-- Claim C2: when both searches succeed, getInlineResults is exactly the
formatted movie list followed by the formatted tv list, and each group is the
positional image of an order-preserving selection (a sublist) of the raw
upstream results, so output order follows input position. -/
theorem c2_getInlineResults_order (prov : Int → Media → ProviderResponse)
    (ms ts : SearchResponse) (movies tv : List InlineResult)
    (hm : getInlineResultsMap prov ms Media.movie = some movies)
    (ht : getInlineResultsMap prov ts Media.tv = some tv) :
    getInlineResults prov ms ts = Except.ok (movies ++ tv) ∧
    (∃ rawM : List RawResult, rawM.Sublist (ms.results.getD []) ∧
      movies = rawM.map (formatResult prov Media.movie)) ∧
    (∃ rawT : List RawResult, rawT.Sublist (ts.results.getD []) ∧
      tv = rawT.map (formatResult prov Media.tv)) := by
  refine ⟨by simp [getInlineResults, hm, ht], ?_, ?_⟩
  · cases hres : ms.results with
    | none => simp [getInlineResultsMap, hres] at hm
    | some L =>
      simp only [getInlineResultsMap, hres, Option.some.injEq] at hm
      refine ⟨(L.take 10).filter (fun r => hasVariantField Media.movie r), ?_, hm.symm⟩
      simp only [Option.getD_some]
      exact ((L.take 10).filter_sublist).trans (List.take_sublist 10 L)
  · cases hres : ts.results with
    | none => simp [getInlineResultsMap, hres] at ht
    | some L =>
      simp only [getInlineResultsMap, hres, Option.some.injEq] at ht
      refine ⟨(L.take 10).filter (fun r => hasVariantField Media.tv r), ?_, ht.symm⟩
      simp only [Option.getD_some]
      exact ((L.take 10).filter_sublist).trans (List.take_sublist 10 L)

/-- Witness for claim C2: the concrete query answers with the movie list
followed by the tv list. -/
theorem c2_getInlineResults_order_witness :
    getInlineResults prov0 ms0 ts0 = Except.ok (movies0 ++ tv0) :=
  (c2_getInlineResults_order prov0 ms0 ts0 movies0 tv0 rfl rfl).1

/-- Claim C9: every formatted inline result comes from one of the first 10 raw
results possessing the variant's distinguishing field, and the output length
counts exactly the field-possessing raw results, so the others are excluded. -/
theorem c9_variant_field_filter (prov : Int → Media → ProviderResponse)
    (search : SearchResponse) (ty : Media) (out : List InlineResult)
    (h : getInlineResultsMap prov search ty = some out) :
    (∀ x ∈ out, ∃ raw ∈ (search.results.getD []).take 10,
      hasVariantField ty raw = true ∧ x = formatResult prov ty raw) ∧
    out.length =
      ((search.results.getD []).take 10).countP (fun r => hasVariantField ty r) := by
  cases hres : search.results with
  | none => simp [getInlineResultsMap, hres] at h
  | some L =>
    simp only [getInlineResultsMap, hres, Option.some.injEq] at h
    subst h
    constructor
    · intro x hx
      simp only [Option.getD_some]
      obtain ⟨raw, hrawmem, hrawfmt⟩ := List.mem_map.mp hx
      obtain ⟨hmem, hfield⟩ := List.mem_filter.mp hrawmem
      exact ⟨raw, hmem, hfield, hrawfmt.symm⟩
    · simp only [Option.getD_some]
      simp [List.countP_eq_length_filter]

/-- Witness for claim C9: the concrete movie query's output length equals the
count of field-possessing raw results among the first 10. -/
theorem c9_variant_field_filter_witness :
    movies0.length =
      ((ms0.results.getD []).take 10).countP
        (fun r => hasVariantField Media.movie r) :=
  (c9_variant_field_filter prov0 ms0 Media.movie movies0 rfl).2

/-- Appending the empty string on the right is the identity. -/
theorem string_append_empty_right (s : String) : s ++ "" = s := by
  cases s with
  | mk data => show String.mk (data ++ []) = String.mk data; rw [List.append_nil]

/-- watchBlock is determined by the flatrate list reached through the optional
chain: absent list gives an empty block, present list (even empty) gives the
header followed by one line per provider. -/
theorem watchBlock_eq_flatrate (p : ProviderResponse) :
    watchBlock p =
      match flatrateOf p with
      | none => ""
      | some fr =>
        "Streaming on:\n" ++ String.join (fr.map (fun s => s.provider_name ++ "\n")) := by
  obtain ⟨results⟩ := p
  cases results with
  | none => rfl
  | some rs =>
    obtain ⟨us⟩ := rs
    cases us with
    | none => rfl
    | some off =>
      obtain ⟨fr⟩ := off
      cases fr <;> rfl

/-- Claim C4 fails as stated: with an empty date string the derived year is
undefined, but the year segment of the composed title renders as the text
undefined in parentheses, not as empty parentheses. -/
theorem c4_year_render_counterexample :
    deriveYear (dateOf Media.movie rEmptyDate) = none ∧
    (formatResult prov0 Media.movie rEmptyDate).title = "X (undefined)" ∧
    (formatResult prov0 Media.movie rEmptyDate).title ≠ "X ()" := by
  refine ⟨rfl, by decide, by decide⟩

/-- Claim C4 amended: for a date string 1984-10-26 the derived year is 1984;
for an empty date string the derived year is undefined and the year segment
of the composed title renders as the text undefined in parentheses. -/
theorem c4_year_derivation_amended (prov : Int → Media → ProviderResponse)
    (ty : Media) (r : RawResult) :
    (dateOf ty r = some ("1984-10-26") → deriveYear (dateOf ty r) = some 1984) ∧
    (dateOf ty r = some ("") →
      deriveYear (dateOf ty r) = none ∧
      (formatResult prov ty r).title =
        optStr (titleOf ty r) ++ " (" ++ "undefined" ++ ")") := by
  constructor
  · intro h
    rw [h]
    decide
  · intro h
    refine ⟨by rw [h]; rfl, ?_⟩
    show composedTitle ty r = _
    unfold composedTitle
    rw [h]
    rfl

/-- Witness for claim C4 amended: the concrete movie result derives year 1984,
and the empty-date result renders the undefined year. -/
theorem c4_year_derivation_amended_witness :
    deriveYear (dateOf Media.movie rawMovie1) = some 1984 ∧
    (deriveYear (dateOf Media.movie rEmptyDate) = none ∧
      (formatResult prov0 Media.movie rEmptyDate).title =
        optStr (titleOf Media.movie rEmptyDate) ++ " (" ++ "undefined" ++ ")") :=
  ⟨(c4_year_derivation_amended prov0 Media.movie rawMovie1).1 rfl,
   (c4_year_derivation_amended prov0 Media.movie rEmptyDate).2 rfl⟩

/-- Claim C5 fails as stated: with a present but empty US flatrate list the
streaming header is still emitted (an empty JS array is truthy), so the
composed body is not just the title and year header. -/
theorem c5_empty_flatrate_counterexample :
    flatrateOf provEmptyFlatrate = some [] ∧
    composedBody (provFor provEmptyFlatrate) Media.movie rawMovie1 =
      "The Terminator (1984)\n\nStreaming on:\n" ∧
    composedBody (provFor provEmptyFlatrate) Media.movie rawMovie1 ≠
      "The Terminator (1984)\n\n" := by
  refine ⟨rfl, by decide, by decide⟩

/-- Claim C5 amended: the streaming block of the composed body before escaping
is emitted whenever a US flatrate list is present, even when it is empty: the
header followed by one line per provider name; the block is omitted only when
the flatrate list is absent. The stored message text is the escaped form of
the composed body. -/
theorem c5_streaming_block_amended (prov : Int → Media → ProviderResponse)
    (ty : Media) (r : RawResult) :
    (∀ fr, flatrateOf (prov r.id ty) = some fr →
      composedBody prov ty r =
        composedTitle ty r ++ "\n\n" ++
          ("Streaming on:\n" ++
            String.join (fr.map (fun s => s.provider_name ++ "\n")))) ∧
    (flatrateOf (prov r.id ty) = none →
      composedBody prov ty r = composedTitle ty r ++ "\n\n") ∧
    (formatResult prov ty r).message_text = escapeRegExp (composedBody prov ty r) := by
  refine ⟨?_, ?_, rfl⟩
  · intro fr hfr
    unfold composedBody
    rw [watchBlock_eq_flatrate, hfr]
  · intro hfr
    unfold composedBody
    rw [watchBlock_eq_flatrate, hfr]
    exact string_append_empty_right _

/-- Witness for claim C5 amended: a single Netflix provider yields the body
ending in the streaming block, and an absent flatrate list omits it. -/
theorem c5_streaming_block_amended_witness :
    composedBody (provFor provNetflix) Media.movie rawMovie1 =
      "The Terminator (1984)\n\nStreaming on:\nNetflix\n" ∧
    composedBody (provFor provNone) Media.movie rawMovie1 =
      "The Terminator (1984)\n\n" := by
  constructor
  · have h := (c5_streaming_block_amended (provFor provNetflix) Media.movie
      rawMovie1).1 [{ provider_name := "Netflix" }] rfl
    exact h.trans (by decide)
  · have h := (c5_streaming_block_amended (provFor provNone) Media.movie
      rawMovie1).2.1 rfl
    exact h.trans (by decide)

/-- Claim C6: when the combined list is produced, the handler answers the
inline query exactly when the list is non-empty and makes no answer call when
it is empty. -/
theorem c6_handler_reply (prov : Int → Media → ProviderResponse)
    (ms ts : SearchResponse) (res : List InlineResult)
    (h : getInlineResults prov ms ts = Except.ok res) :
    (res = [] → inlineQueryHandler prov ms ts = HandlerOutcome.noReply) ∧
    (res ≠ [] → inlineQueryHandler prov ms ts = HandlerOutcome.answered res) := by
  constructor
  · intro hres
    simp [inlineQueryHandler, h, hres]
  · intro hres
    have hlen : 0 < res.length := List.length_pos.mpr hres
    simp [inlineQueryHandler, h, hlen]

/-- Witness for claim C6: a zero-result query yields no reply and the concrete
non-empty query is answered with its combined list. -/
theorem c6_handler_reply_witness :
    inlineQueryHandler prov0 msEmpty msEmpty = HandlerOutcome.noReply ∧
    inlineQueryHandler prov0 ms0 ts0 = HandlerOutcome.answered (movies0 ++ tv0) :=
  ⟨(c6_handler_reply prov0 msEmpty msEmpty [] rfl).1 rfl,
   (c6_handler_reply prov0 ms0 ts0 (movies0 ++ tv0) rfl).2 (by decide)⟩

/-- Claim C7: the provider-catalog cache is written at most once per media
type: a miss fetches the catalog, stores it, and a second call on the updated
cache returns the stored catalog without fetching and without change; a hit
returns the stored catalog untouched with no fetch. -/
theorem c7_cache_write_once {α : Type} (f : Media → α) (ty : Media)
    (cache : Media → Option α) :
    (cache ty = none →
      getWatchProviders f ty cache =
        ⟨f ty, fun t => if t = ty then some (f ty) else cache t, true⟩ ∧
      getWatchProviders f ty ((getWatchProviders f ty cache).cache) =
        ⟨f ty, (getWatchProviders f ty cache).cache, false⟩) ∧
    (∀ v, cache ty = some v →
      getWatchProviders f ty cache = ⟨v, cache, false⟩) := by
  constructor
  · intro h
    have h1 : getWatchProviders f ty cache =
        ⟨f ty, fun t => if t = ty then some (f ty) else cache t, true⟩ := by
      simp [getWatchProviders, h]
    refine ⟨h1, ?_⟩
    rw [h1]
    simp [getWatchProviders]
  · intro v hv
    simp [getWatchProviders, hv]

/-- Witness for claim C7: populating an empty cache and reading it again
returns the stored catalog with no further fetch. -/
theorem c7_cache_write_once_witness :
    (getWatchProviders constCatalog Media.movie
      ((getWatchProviders constCatalog Media.movie cacheEmpty).cache)).value = 7 ∧
    (getWatchProviders constCatalog Media.movie
      ((getWatchProviders constCatalog Media.movie cacheEmpty).cache)).fetched
        = false := by
  have h := (c7_cache_write_once constCatalog Media.movie cacheEmpty).1 rfl
  constructor
  · rw [h.2]
    rfl
  · rw [h.2]

/-- Claim C10: a parsed search response without a results field makes
getInlineResultsMap return none rather than an empty list, getInlineResults
then fails when combining the two lists, and the handler ends in the error
path instead of the graceful no-reply path. -/
theorem c10_missing_results_error (prov : Int → Media → ProviderResponse)
    (ms ts : SearchResponse) (ty : Media) (hm : ms.results = none) :
    getInlineResultsMap prov ms ty = none ∧
    (∃ e, getInlineResults prov ms ts = Except.error e) ∧
    (∃ e, inlineQueryHandler prov ms ts = HandlerOutcome.errored e) := by
  have h1 : ∀ ty2, getInlineResultsMap prov ms ty2 = none := by
    intro ty2
    simp [getInlineResultsMap, hm]
  refine ⟨h1 ty, ?_, ?_⟩
  · refine ⟨"TypeError: spread of undefined", ?_⟩
    simp [getInlineResults, h1]
  · refine ⟨"TypeError: spread of undefined", ?_⟩
    simp [inlineQueryHandler, getInlineResults, h1]

/-- Witness for claim C10: the concrete response without a results field. -/
theorem c10_missing_results_error_witness :
    getInlineResultsMap prov0 msNoResults Media.movie = none :=
  (c10_missing_results_error prov0 msNoResults ts0 Media.movie rfl).1

/-- Claim C8 fails as stated: on page 1 of 3, choosing result number 1 whose
title has id 0 does not fetch that title's details; the falsy id falls through
to the show-more branch and the search is re-queried at page 2. -/
theorem c8_zero_id_counterexample :
    userSearchStep [rZeroId] 3 1 1 = SearchAction.nextPage 2 ∧
    userSearchStep [rZeroId] 3 1 1 ≠ SearchAction.fetchDetails rZeroId.id := by
  decide

/-- Claim C8 amended: with the current page strictly below total_pages, the
show-more option is presented numbered one past the last real result, choosing
it re-queries the search at page+1, and choosing a real result's number fetches
that title's details provided the title's id is nonzero (a zero id is falsy in
the source and falls through to the show-more branch). -/
theorem c8_cli_pagination_amended (results : List RawResult)
    (total_pages page : Int) (h : page < total_pages) :
    (results.length + 1) ∈ presentedChoices results total_pages page ∧
    userSearchStep results total_pages page (results.length + 1) =
      SearchAction.nextPage (page + 1) ∧
    (∀ k r, results.get? k = some r → r.id ≠ 0 →
      (k + 1) ∈ presentedChoices results total_pages page ∧
      userSearchStep results total_pages page (k + 1) =
        SearchAction.fetchDetails r.id) := by
  have hd : decide (page < total_pages) = true := decide_eq_true h
  refine ⟨?_, ?_, ?_⟩
  · simp [presentedChoices, validChoices, hd]
  · have hg : results.get? (results.length + 1 - 1) = none := by
      simp [List.get?_eq_none]
    simp [userSearchStep, getAnswerFromUser, hg, idTruthy, hd]
  · intro k r hk hid
    have hlt : k < results.length := by
      rcases List.get?_eq_some.mp hk with ⟨hlt, _⟩
      exact hlt
    constructor
    · simp only [presentedChoices, validChoices, hd, if_pos]
      exact List.mem_append_left _ (List.mem_map.mpr ⟨k, List.mem_range.mpr hlt, rfl⟩)
    · have hk2 : results[k]? = some r := by
        rw [← List.get?_eq_getElem?]
        exact hk
      simp [userSearchStep, getAnswerFromUser, hk2, idTruthy, hid]

/-- Witness for claim C8 amended: one result on page 1 of 3 presents option 2
as show-more, choosing 2 advances to page 2, and choosing 1 fetches the
details of the result with id 1. -/
theorem c8_cli_pagination_amended_witness :
    2 ∈ presentedChoices [rawMovie1] 3 1 ∧
    userSearchStep [rawMovie1] 3 1 2 = SearchAction.nextPage 2 ∧
    (1 ∈ presentedChoices [rawMovie1] 3 1 ∧
      userSearchStep [rawMovie1] 3 1 1 = SearchAction.fetchDetails 1) := by
  have h := c8_cli_pagination_amended [rawMovie1] 3 1 (by decide)
  exact ⟨h.1, h.2.1, h.2.2 0 rawMovie1 rfl (by decide)⟩
